import Mathlib

/-!
Verification of the polling/coordination layer of the defa_power integration.

The definitions below are a shallow embedding of the Python sources under
custom_components/defa_power: pure data flow becomes Lean functions, the
event-loop concurrency of the eco-mode coordinator becomes an explicit,
executable small-step transition system over atomic segments (the code
between two awaits runs atomically on the single-threaded event loop).
-/

namespace DefaPower

/-!  Data model (cloudcharge_api/models.py and the eco-mode document). -/

/-- Modelled from the spec: the TypedDict EcoModeConfiguration is imported from
cloudcharge_api/models.py but is not defined in that file.  The spec describes
the whole-document remote resource as an activation flag, pickup-time
enablement, hours-to-charge and a per-weekday schedule map; the four keys are
exactly the ones read by coordinator.py, switch.py, number.py and select.py
(the weekday map sends weekday name to an optional pickup hour). -/
structure EcoModeConfiguration where
  active : Bool
  pickupTimeEnabled : Bool
  hoursToCharge : Nat
  dayOfWeekMap : List (String × Option Nat)
deriving DecidableEq, Repr

/-- Modelled from the spec: EcoModeConfigurationRequest, the whole-document
write body, carries the same four fields as the configuration document. -/
structure EcoModeConfigurationRequest where
  active : Bool
  pickupTimeEnabled : Bool
  hoursToCharge : Nat
  dayOfWeekMap : List (String × Option Nat)
deriving DecidableEq, Repr

/-- The provider error taxonomy of cloudcharge_api/exceptions.py.  Every
constructor is a subclass of CloudChargeAPIError in the source; authError
corresponds to CloudChargeAuthError and is caught before the generic base
class in the coordinators. -/
inductive CloudChargeAPIError
  | authError
  | requestError
  | notLoggedInError
  | badRequestError (raw : String)
  | forbiddenError (raw : String)
deriving DecidableEq, Repr

/-- What one coordinator refresh cycle raises or returns, as seen by the host
polling framework: success, ConfigEntryAuthFailed, UpdateFailed, or a raw
(unwrapped) provider exception escaping the cycle. -/
inductive UpdateOutcome (α : Type)
  | ok (data : α)
  | configEntryAuthFailed
  | updateFailed
  | unhandled (e : CloudChargeAPIError)
deriving DecidableEq, Repr

/-- OCPPData of cloudcharge_api/models.py, restricted to the field the
coordinator control flow reads. -/
structure OCPPData where
  chargingState : Option String
deriving DecidableEq, Repr

/-- OperationalData of cloudcharge_api/models.py, restricted to the field the
coordinator control flow reads; every key of the TypedDict is optional. -/
structure OperationalData where
  ocpp : Option OCPPData
deriving DecidableEq, Repr

/-- data.get("ocpp", \x7b\x7d).get("chargingState") from coordinator.py line 111. -/
def OperationalData.charging_state (d : OperationalData) : Option String :=
  match d.ocpp with
  | some o => o.chargingState
  | none => none

/-- Python truthiness of an optional string: None and the empty string are
falsy (the `if charging_state:` test in coordinator.py line 113). -/
def strTruthy : Option String → Bool
  | none => false
  | some s => !(s == "")

/-- Connector of cloudcharge_api/models.py, restricted to the id and the
chargepoint_id key that CloudChargeChargepointCoordinator attaches. -/
structure Connector where
  id : String
  chargepoint_id : Option String
deriving DecidableEq, Repr

/-- ChargePoint of cloudcharge_api/models.py, restricted to the fields the
chargepoint coordinator reads (id and aliasMap). -/
structure ChargePoint where
  id : String
  aliasMap : List (String × Connector)
deriving DecidableEq, Repr

/-- The dictionary returned by CloudChargeChargepointCoordinator._async_update_data. -/
structure ChargepointData where
  chargepoint : ChargePoint
  connectors : List (String × Connector)
deriving DecidableEq, Repr

/-- The except clauses shared by all three coordinators (coordinator.py lines
54-61, 104-109, 161-168): CloudChargeAuthError is re-raised as
ConfigEntryAuthFailed, any other CloudChargeAPIError as UpdateFailed. -/
def wrapProviderError {α : Type} (e : CloudChargeAPIError) : UpdateOutcome α :=
  if e = .authError then .configEntryAuthFailed else .updateFailed

/-- CloudChargeChargepointCoordinator._async_update_data (coordinator.py lines
45-69): fetch the chargepoint, wrap provider errors, and on success derive the
alias-to-connector map, attaching the owning chargepoint id to each connector.
The embedding consumes exactly one fetch outcome per cycle: the code performs
a single client call with no internal retry. -/
def chargepointUpdateData (fetch : Except CloudChargeAPIError ChargePoint) :
    UpdateOutcome ChargepointData :=
  match fetch with
  | .error .authError => .configEntryAuthFailed
  | .error _ => .updateFailed
  | .ok cp =>
      let connectors := cp.aliasMap.map
        (fun p => (p.1, { p.2 with chargepoint_id := some cp.id }))
      .ok { chargepoint := cp, connectors := connectors }

/-- The mutable state of CloudChargeOperationalDataCoordinator: the is_charging
flag and the update interval in seconds (60 initially). -/
structure OpCoordinatorState where
  is_charging : Bool
  update_interval : Nat
deriving DecidableEq, Repr

/-- Constructor state of the operational-data coordinator (coordinator.py
lines 75-93): update_interval of 60 seconds, is_charging False. -/
def initialOpState : OpCoordinatorState :=
  { is_charging := false, update_interval := 60 }

/-- CloudChargeOperationalDataCoordinator._async_update_data (coordinator.py
lines 95-122).  The first argument resolves the fetch
(async_get_operational_data); the second resolves the
async_start_live_consumption call in case it is reached.  Returns the new
coordinator state, the cycle outcome, and whether the start-live-consumption
request was issued.  Note that in the source the start-live-consumption await
on line 121 sits outside the try/except of lines 104-109: a provider error
raised there escapes the cycle unwrapped, after the state has already been
mutated. -/
def opUpdateData (s : OpCoordinatorState)
    (fetch : Except CloudChargeAPIError OperationalData)
    (live : Except CloudChargeAPIError Unit) :
    OpCoordinatorState × UpdateOutcome OperationalData × Bool :=
  match fetch with
  | .error .authError => (s, .configEntryAuthFailed, false)
  | .error _ => (s, .updateFailed, false)
  | .ok data =>
      let charging_state := data.charging_state
      if strTruthy charging_state then
        if s.is_charging && !(charging_state == some "Charging") then
          ({ is_charging := false, update_interval := 60 }, .ok data, false)
        else if !s.is_charging && (charging_state == some "Charging") then
          match live with
          | .ok _ => ({ is_charging := true, update_interval := 10 }, .ok data, true)
          | .error e => ({ is_charging := true, update_interval := 10 }, .unhandled e, true)
        else (s, .ok data, false)
      else (s, .ok data, false)

/-- An operational snapshot whose OCPP charging state is the given string. -/
def opSnapshot (cs : String) : OperationalData :=
  { ocpp := some { chargingState := some cs } }

/-!  The API client surface (cloudcharge_api/client.py): the methods the
CloudChargeAPIClient class defines, with the number of arguments each takes
besides self.  Transcribed from the class body. -/

def clientMethods : List (String × Nat) :=
  [("async_login_with_token", 2),
   ("set_login", 2),
   ("async_send_sms_code", 2),
   ("async_login_with_phone_number", 3),
   ("forget_login", 0),
   ("async_logout", 0),
   ("is_logged_in", 0),
   ("async_get_chargepoint_ids", 2),
   ("async_get_private_chargepoints", 0),
   ("async_get_chargepoint", 1),
   ("async_get_operational_data", 1),
   ("async_get_load_balancer", 1),
   ("async_get_network_configuration", 1),
   ("async_start_live_consumption", 1),
   ("async_get_max_current_alternatives", 1),
   ("async_set_max_current", 2),
   ("async_start_charging", 1),
   ("async_stop_charging", 1),
   ("async_reset_charger", 2),
   ("async_get_eco_mode_configuration", 1),
   ("async_set_eco_mode_configuration", 2),
   ("export_credentials", 0),
   ("import_credentials", 1),
   ("async_import_and_validate_credentials", 1)]

/-- Attribute lookup on the client: the arity of the named method, if the
class defines it. -/
def lookupClientMethod (name : String) : Option Nat :=
  (clientMethods.find? (fun p => p.1 == name)).map (fun p => p.2)

/-- Outcome of a button press handler. -/
inductive ButtonPressResult
  | attributeError (missing : String)
  | requestSent
deriving DecidableEq, Repr

/-- The method name ChargerRestartButton.async_press resolves on the client
(button.py line 178) and the number of arguments it passes (connector_id). -/
def chargerRestartCall : String × Nat := ("async_restart_charger", 1)

/-- ChargerRestartButton.async_press (button.py lines 176-178): resolve the
method on the client and, when it exists, issue its request.  Returns the
result and the number of HTTP requests sent.  Attribute resolution on a
missing method raises AttributeError before any request is made. -/
def chargerRestartAsyncPress : ButtonPressResult × Nat :=
  match lookupClientMethod chargerRestartCall.1 with
  | none => (.attributeError chargerRestartCall.1, 0)
  | some _ => (.requestSent, 1)

/-!  CloudChargeEcoModeCoordinator (coordinator.py lines 125-230).

The coordinator runs on a single-threaded asyncio event loop: code between two
awaits executes atomically.  We embed it as an executable small-step system.
A step runs one atomic segment: either the synchronous part of set_data (it
contains no await before `await self._save_task`; asyncio.create_task only
schedules the new task), or the resumption of the save task at one of its
suspension points (task start, completion of the write request, completion of
async_refresh).  Task objects are kept in a list so that the single-flight
guards of the source are facts to prove, not modelling assumptions.  -/

/-- The request dictionary built in _save_changes lines 202-207 from the four
keys of the pending overlay. -/
def mkEcoRequest (d : EcoModeConfiguration) : EcoModeConfigurationRequest :=
  { active := d.active, pickupTimeEnabled := d.pickupTimeEnabled,
    hoursToCharge := d.hoursToCharge, dayOfWeekMap := d.dayOfWeekMap }

/-- Program counter of one _save_changes task: created but not yet run,
suspended at the write await (line 210), suspended at async_refresh
(line 221), or completed (normally or with an exception). -/
inductive SavePC
  | started
  | awaitingWrite (req : EcoModeConfigurationRequest)
  | awaitingRefresh
  | finishedOk
  | finishedError
deriving DecidableEq, Repr

/-- One asyncio task created by set_data line 187, together with the number of
set_data callers currently awaiting it. -/
structure SaveTask where
  pc : SavePC
  waiters : Nat
deriving DecidableEq, Repr

/-- Task.done() in the sense of asyncio: the coroutine has finished. -/
def SaveTask.done (t : SaveTask) : Bool :=
  match t.pc with
  | .finishedOk => true
  | .finishedError => true
  | _ => false

/-- A task whose coroutine is executing the body of _save_changes past the
_is_saving guard (it is suspended at the write or at the refresh). -/
def isBodyTask (t : SaveTask) : Bool :=
  match t.pc with
  | .awaitingWrite _ => true
  | .awaitingRefresh => true
  | _ => false

/-- The fields of CloudChargeEcoModeCoordinator: self.data (the last document
confirmed by a poll, cached by the host coordinator base class),
self._modified_data, self._has_changes, self._is_saving and self._save_task
(an index into the list of task objects created so far). -/
structure EcoState where
  data : Option EcoModeConfiguration
  modified_data : Option EcoModeConfiguration
  has_changes : Bool
  is_saving : Bool
  save_task : Option Nat
  tasks : List SaveTask
deriving DecidableEq, Repr

/-- Constructor state (coordinator.py lines 147-150), with a given cached
poll result. -/
def initialEcoState (d : Option EcoModeConfiguration) : EcoState :=
  { data := d, modified_data := none, has_changes := false,
    is_saving := false, save_task := none, tasks := [] }

/-- get_data (coordinator.py lines 170-172): the pending overlay when one
exists, else the cached poll result. -/
def EcoState.get_data (s : EcoState) : Option EcoModeConfiguration :=
  match s.modified_data with
  | some m => some m
  | none => s.data

/-- Observable events of one atomic segment. callbackApplied records the
document the set_data callback was invoked on; writeSent records the body of
a whole-document write dispatched to the API client; refreshed records the
outcome of an async_refresh (some d when the poll succeeded); taskCompleted
records a task finishing and delivering its result (normal or exceptional) to
every set_data caller awaiting it. -/
inductive EcoEvent
  | callbackApplied (arg : Option EcoModeConfiguration)
  | taskCreated (i : Nat)
  | taskJoined (i : Nat)
  | writeSent (req : EcoModeConfigurationRequest)
  | refreshed (r : Option EcoModeConfiguration)
  | listenersNotified
  | taskCompleted (i : Nat) (ok : Bool) (waiters : Nat)
deriving DecidableEq, Repr

/-- Commands scheduling the next atomic segment: a set_data call runs its
synchronous part, a created task starts, an in-flight write completes
(successfully or raising a CloudChargeAPIError), an async_refresh completes
(some d on poll success, none on poll failure, which async_refresh swallows). -/
inductive EcoCmd
  | applyEdit (f : EcoModeConfiguration → EcoModeConfiguration)
  | runTaskStart (i : Nat)
  | completeWrite (i : Nat) (ok : Bool)
  | completeRefresh (i : Nat) (r : Option EcoModeConfiguration)

/-- One iteration of the inner coalescing loop of _save_changes (lines
200-207) up to the write await: clear _has_changes, snapshot the overlay into
a request and suspend at the write.  When the overlay is None (possible only
if set_data ran without any confirmed document) the dictionary accesses on
lines 203-206 raise TypeError, which propagates through the finally of lines
228-230. -/
def beginWrite (s : EcoState) (i w : Nat) : EcoState × List EcoEvent :=
  match s.modified_data with
  | some d =>
      ({ s with has_changes := false,
                tasks := s.tasks.set i ⟨.awaitingWrite (mkEcoRequest d), w⟩ },
       [.writeSent (mkEcoRequest d)])
  | none =>
      ({ s with has_changes := false, is_saving := false, save_task := none,
                tasks := s.tasks.set i ⟨.finishedError, w⟩ },
       [.taskCompleted i false w])

/-- Clean exit of the outer loop of _save_changes (lines 223-230): clear the
overlay, notify all listeners, then the finally clears _is_saving and
_save_task; the task completes normally. -/
def finishSave (s : EcoState) (i w : Nat) : EcoState × List EcoEvent :=
  ({ s with modified_data := none, is_saving := false, save_task := none,
            tasks := s.tasks.set i ⟨.finishedOk, w⟩ },
   [.listenersNotified, .taskCompleted i true w])

/-- One atomic segment of the coordinator.

applyEdit is set_data lines 176-189 up to its await: take the existing
overlay, or a deep copy of self.data when none exists (deepcopy of None is
None); invoke the callback on it; store it back; set _has_changes; create a
save task if _save_task is None or done, else join the pending one.

runTaskStart is the segment of _save_changes from its entry: return at once
if _is_saving (line 193), else set _is_saving, and either enter the loop
(suspending at the first write) or, without changes, exit cleanly.

completeWrite resumes at line 210: on success re-check the inner loop
condition (another write, or move on to the refresh await); on a
CloudChargeAPIError drop the overlay, re-raise (lines 213-216) and run the
finally, completing the task exceptionally.

completeRefresh resumes at line 221: async_refresh stored the newly polled
document on success (and swallowed the failure otherwise), then the outer
loop condition is re-checked.  -/
def ecoStep (s : EcoState) (c : EcoCmd) : EcoState × List EcoEvent :=
  match c with
  | .applyEdit f =>
      let arg := match s.modified_data with
                 | some m => some m
                 | none => s.data
      let s1 := { s with modified_data := arg.map f, has_changes := true }
      match s.save_task with
      | some i =>
          match s1.tasks.get? i with
          | some t =>
              if t.done then
                ({ s1 with tasks := s1.tasks ++ [⟨.started, 1⟩],
                           save_task := some s1.tasks.length },
                 [.callbackApplied arg, .taskCreated s1.tasks.length])
              else
                ({ s1 with tasks := s1.tasks.set i ⟨t.pc, t.waiters + 1⟩ },
                 [.callbackApplied arg, .taskJoined i])
          | none =>
              ({ s1 with tasks := s1.tasks ++ [⟨.started, 1⟩],
                         save_task := some s1.tasks.length },
               [.callbackApplied arg, .taskCreated s1.tasks.length])
      | none =>
          ({ s1 with tasks := s1.tasks ++ [⟨.started, 1⟩],
                     save_task := some s1.tasks.length },
           [.callbackApplied arg, .taskCreated s1.tasks.length])
  | .runTaskStart i =>
      match s.tasks.get? i with
      | some ⟨.started, w⟩ =>
          if s.is_saving then
            ({ s with tasks := s.tasks.set i ⟨.finishedOk, w⟩ },
             [.taskCompleted i true w])
          else
            let s1 := { s with is_saving := true }
            if s1.has_changes then beginWrite s1 i w else finishSave s1 i w
      | _ => (s, [])
  | .completeWrite i ok =>
      match s.tasks.get? i with
      | some ⟨.awaitingWrite _, w⟩ =>
          if ok then
            if s.has_changes then beginWrite s i w
            else ({ s with tasks := s.tasks.set i ⟨.awaitingRefresh, w⟩ }, [])
          else
            ({ s with modified_data := none, is_saving := false,
                      save_task := none,
                      tasks := s.tasks.set i ⟨.finishedError, w⟩ },
             [.taskCompleted i false w])
      | _ => (s, [])
  | .completeRefresh i r =>
      match s.tasks.get? i with
      | some ⟨.awaitingRefresh, w⟩ =>
          let s1 := match r with
                    | some d => { s with data := some d }
                    | none => s
          if s1.has_changes then
            let sev := beginWrite s1 i w
            (sev.1, .refreshed r :: sev.2)
          else
            let sev := finishSave s1 i w
            (sev.1, .refreshed r :: sev.2)
      | _ => (s, [])

/-- State component of one step. -/
def ecoStepState (s : EcoState) (c : EcoCmd) : EcoState := (ecoStep s c).1

/-- Event component of one step. -/
def ecoStepEvents (s : EcoState) (c : EcoCmd) : List EcoEvent := (ecoStep s c).2

/-- Run a schedule of atomic segments, accumulating the event trace. -/
def ecoRun (s : EcoState) : List EcoCmd → EcoState × List EcoEvent
  | [] => (s, [])
  | c :: cs =>
      ((ecoRun (ecoStep s c).1 cs).1,
       (ecoStep s c).2 ++ (ecoRun (ecoStep s c).1 cs).2)

/-- The whole-document write bodies occurring in a trace, in order. -/
def writesOf (evs : List EcoEvent) : List EcoModeConfigurationRequest :=
  evs.filterMap (fun e => match e with | .writeSent req => some req | _ => none)

/-- Sequential merge of a list of edit callbacks into a document. -/
def coalescedDoc (d : EcoModeConfiguration)
    (fs : List (EcoModeConfiguration → EcoModeConfiguration)) :
    EcoModeConfiguration :=
  fs.foldl (fun acc f => f acc) d

/-- Number of save-task coroutines currently executing the body of
_save_changes (past the _is_saving guard and not yet finished). -/
def runningSaves (s : EcoState) : Nat :=
  s.tasks.countP (fun t => isBodyTask t)

/-- The coordinator state after the first set_data call lands on a clean
coordinator with confirmed document d0, generalized over the merged overlay m
and the number of joined waiters w: one scheduled save task, a pending
overlay, unsaved changes flagged. -/
def pendingEditState (d0 m : EcoModeConfiguration) (w : Nat) : EcoState :=
  { data := some d0, modified_data := some m, has_changes := true,
    is_saving := false, save_task := some 0, tasks := [⟨.started, w⟩] }

/-!  Sample documents and states used by the concrete witnesses. -/

def sampleDoc : EcoModeConfiguration :=
  { active := false, pickupTimeEnabled := false, hoursToCharge := 3,
    dayOfWeekMap := [("MONDAY", some 8), ("TUESDAY", none)] }

def sampleDocB : EcoModeConfiguration :=
  { active := true, pickupTimeEnabled := true, hoursToCharge := 5,
    dayOfWeekMap := [("MONDAY", none)] }

def setActiveTrue : EcoModeConfiguration → EcoModeConfiguration :=
  fun d => { d with active := true }

def inFlightWriteState : EcoState :=
  { data := some sampleDoc, modified_data := some sampleDocB,
    has_changes := false, is_saving := true, save_task := some 0,
    tasks := [⟨.awaitingWrite (mkEcoRequest sampleDocB), 2⟩] }

def awaitingRefreshState : EcoState :=
  { data := some sampleDoc, modified_data := some sampleDocB,
    has_changes := false, is_saving := true, save_task := some 0,
    tasks := [⟨.awaitingRefresh, 1⟩] }

/-- The single-flight invariant: at most one save coroutine is inside the
body of _save_changes, and the _is_saving flag is set exactly while one is. -/
def EcoInv (s : EcoState) : Prop :=
  runningSaves s ≤ 1 ∧ (s.is_saving = true ↔ runningSaves s = 1)

/-!  Helper lemmas: list bookkeeping and trace decomposition. -/

theorem get?_set_of_get? {α : Type} (l : List α) (i : Nat) (a b : α)
    (h : l.get? i = some a) : (l.set i b).get? i = some b := by
  induction l generalizing i with
  | nil => simp at h
  | cons x xs ih =>
      cases i with
      | zero => rfl
      | succ n => exact ih n h

theorem countP_set_of_get? {α : Type} (p : α → Bool) (l : List α) (i : Nat)
    (a b : α) (h : l.get? i = some a) :
    (l.set i b).countP p + (if p a then 1 else 0)
      = l.countP p + (if p b then 1 else 0) := by
  induction l generalizing i with
  | nil => simp at h
  | cons x xs ih =>
      cases i with
      | zero =>
          have hx : x = a := by simpa using h
          subst hx
          simp [List.countP_cons]
          omega
      | succ n =>
          have h2 := ih n h
          simp only [List.set, List.countP_cons]
          omega

theorem countP_pos_of_get? {α : Type} (p : α → Bool) (l : List α) (i : Nat)
    (a : α) (h : l.get? i = some a) (hp : p a = true) : 0 < l.countP p := by
  induction l generalizing i with
  | nil => simp at h
  | cons x xs ih =>
      cases i with
      | zero =>
          have hx : x = a := by simpa using h
          subst hx
          simp [List.countP_cons, hp]
      | succ n =>
          have h2 := ih n h
          simp only [List.countP_cons]
          omega

theorem ecoRun_append (s : EcoState) (cs ds : List EcoCmd) :
    ecoRun s (cs ++ ds)
      = ((ecoRun (ecoRun s cs).1 ds).1,
         (ecoRun s cs).2 ++ (ecoRun (ecoRun s cs).1 ds).2) := by
  induction cs generalizing s with
  | nil => simp [ecoRun]
  | cons c cs ih =>
      show ((ecoRun (ecoStep s c).1 (cs ++ ds)).1,
            (ecoStep s c).2 ++ (ecoRun (ecoStep s c).1 (cs ++ ds)).2)
          = ((ecoRun (ecoRun (ecoStep s c).1 cs).1 ds).1,
             ((ecoStep s c).2 ++ (ecoRun (ecoStep s c).1 cs).2)
               ++ (ecoRun (ecoRun (ecoStep s c).1 cs).1 ds).2)
      rw [ih]
      simp [List.append_assoc]

theorem ecoStep_edit_initial (d0 : EcoModeConfiguration)
    (f : EcoModeConfiguration → EcoModeConfiguration) :
    ecoStep (initialEcoState (some d0)) (.applyEdit f)
      = (pendingEditState d0 (f d0) 1,
         [.callbackApplied (some d0), .taskCreated 0]) := rfl

theorem ecoStep_edit_pending (d0 m : EcoModeConfiguration) (w : Nat)
    (f : EcoModeConfiguration → EcoModeConfiguration) :
    ecoStep (pendingEditState d0 m w) (.applyEdit f)
      = (pendingEditState d0 (f m) (w + 1),
         [.callbackApplied (some m), .taskJoined 0]) := rfl

theorem ecoRun_edit_burst (fs : List (EcoModeConfiguration → EcoModeConfiguration))
    (d0 m : EcoModeConfiguration) (w : Nat) :
    (ecoRun (pendingEditState d0 m w) (fs.map .applyEdit)).1
      = pendingEditState d0 (coalescedDoc m fs) (w + fs.length) := by
  induction fs generalizing m w with
  | nil => simp [ecoRun, coalescedDoc]
  | cons f fs ih =>
      have h1 : (ecoRun (pendingEditState d0 m w) ((f :: fs).map .applyEdit)).1
          = (ecoRun (pendingEditState d0 (f m) (w + 1)) (fs.map .applyEdit)).1 := by
        show (ecoRun (ecoStep (pendingEditState d0 m w) (.applyEdit f)).1
                (fs.map .applyEdit)).1 = _
        rw [ecoStep_edit_pending]
      rw [h1, ih (f m) (w + 1)]
      have harith : w + 1 + fs.length = w + (fs.length + 1) := by omega
      rw [harith]
      rfl

theorem writesOf_append (es fs : List EcoEvent) :
    writesOf (es ++ fs) = writesOf es ++ writesOf fs := by
  simp [writesOf, List.filterMap_append]

theorem writesOf_edit (s : EcoState)
    (f : EcoModeConfiguration → EcoModeConfiguration) :
    writesOf (ecoStep s (.applyEdit f)).2 = [] := by
  simp only [ecoStep]
  split <;> (try split) <;> (try split) <;> rfl

theorem writesOf_edit_burst (s : EcoState)
    (fs : List (EcoModeConfiguration → EcoModeConfiguration)) :
    writesOf (ecoRun s (fs.map .applyEdit)).2 = [] := by
  induction fs generalizing s with
  | nil => rfl
  | cons f fs ih =>
      show writesOf ((ecoStep s (.applyEdit f)).2
          ++ (ecoRun (ecoStep s (.applyEdit f)).1 (fs.map .applyEdit)).2) = []
      rw [writesOf_append, writesOf_edit, ih]
      rfl

theorem writesOf_save_round (d0 M : EcoModeConfiguration) (w : Nat)
    (r : Option EcoModeConfiguration) :
    writesOf (ecoRun (pendingEditState d0 M w)
        [.runTaskStart 0, .completeWrite 0 true, .completeRefresh 0 r]).2
      = [mkEcoRequest M] := by
  cases r <;> rfl

/-!  The single-flight invariant: at most one save coroutine is ever inside
the body of _save_changes, and the _is_saving flag is set exactly while one
is. -/

theorem isBody_started (w : Nat) :
    isBodyTask ⟨.started, w⟩ = false := rfl

theorem isBody_write (req : EcoModeConfigurationRequest) (w : Nat) :
    isBodyTask ⟨.awaitingWrite req, w⟩ = true := rfl

theorem isBody_refresh (w : Nat) :
    isBodyTask ⟨.awaitingRefresh, w⟩ = true := rfl

theorem isBody_fin_ok (w : Nat) :
    isBodyTask ⟨.finishedOk, w⟩ = false := rfl

theorem isBody_fin_err (w : Nat) :
    isBodyTask ⟨.finishedError, w⟩ = false := rfl

theorem bodyCount_set (l : List SaveTask) (i : Nat) (a b : SaveTask)
    (h : l.get? i = some a) :
    List.countP (fun t => isBodyTask t) (l.set i b)
        + (if isBodyTask a then 1 else 0)
      = List.countP (fun t => isBodyTask t) l
        + (if isBodyTask b then 1 else 0) :=
  countP_set_of_get? (fun t => isBodyTask t) l i a b h

theorem bodyCount_pos (l : List SaveTask) (i : Nat) (a : SaveTask)
    (h : l.get? i = some a) (hp : isBodyTask a = true) :
    0 < List.countP (fun t => isBodyTask t) l :=
  countP_pos_of_get? (fun t => isBodyTask t) l i a h hp

theorem ecoInv_initial (d : Option EcoModeConfiguration) :
    EcoInv (initialEcoState d) := by
  constructor
  · simp [runningSaves, initialEcoState]
  · simp [runningSaves, initialEcoState]

theorem ecoStep_inv (s : EcoState) (c : EcoCmd) (h : EcoInv s) :
    EcoInv (ecoStep s c).1 := by
  obtain ⟨hle, hiff⟩ := h
  simp only [runningSaves] at hle hiff
  cases c with
  | applyEdit f =>
      simp only [ecoStep]
      cases hst : s.save_task with
      | none =>
          have hts : List.countP (fun t => isBodyTask t)
                (s.tasks ++ [⟨.started, 1⟩])
              = List.countP (fun t => isBodyTask t) s.tasks := by
            simp [List.countP_append, List.countP_cons, isBody_started]
          refine ⟨?_, ?_⟩ <;> simp only [runningSaves] <;> rw [hts]
          · exact hle
          · exact hiff
      | some i =>
          try dsimp only
          cases hg : s.tasks.get? i with
          | none =>
              have hts : List.countP (fun t => isBodyTask t)
                    (s.tasks ++ [⟨.started, 1⟩])
                  = List.countP (fun t => isBodyTask t) s.tasks := by
                simp [List.countP_append, List.countP_cons, isBody_started]
              refine ⟨?_, ?_⟩ <;> simp only [runningSaves] <;> rw [hts]
              · exact hle
              · exact hiff
          | some t =>
              cases hd : t.done with
              | true =>
                  have hts : List.countP (fun t => isBodyTask t)
                        (s.tasks ++ [⟨.started, 1⟩])
                      = List.countP (fun t => isBodyTask t) s.tasks := by
                    simp [List.countP_append, List.countP_cons, isBody_started]
                  simp only [hd, eq_self_iff_true, if_true]
                  refine ⟨?_, ?_⟩ <;> simp only [runningSaves] <;> rw [hts]
                  · exact hle
                  · exact hiff
              | false =>
                  simp only [hd, Bool.false_eq_true, if_false]
                  have hc := bodyCount_set s.tasks i t
                      ⟨t.pc, t.waiters + 1⟩ hg
                  have hpe : (if isBodyTask (⟨t.pc, t.waiters + 1⟩ : SaveTask) then 1 else 0)
                      = (if isBodyTask t then 1 else 0) := rfl
                  rw [hpe] at hc
                  have hc2 : List.countP (fun t => isBodyTask t)
                        (s.tasks.set i ⟨t.pc, t.waiters + 1⟩)
                      = List.countP (fun t => isBodyTask t) s.tasks := by omega
                  refine ⟨?_, ?_⟩ <;> simp only [runningSaves] <;> rw [hc2]
                  · exact hle
                  · exact hiff
  | runTaskStart i =>
      simp only [ecoStep]
      cases hg : s.tasks.get? i with
      | none => exact ⟨hle, hiff⟩
      | some t =>
          obtain ⟨pc, w⟩ := t
          cases pc with
          | awaitingWrite req => exact ⟨hle, hiff⟩
          | awaitingRefresh => exact ⟨hle, hiff⟩
          | finishedOk => exact ⟨hle, hiff⟩
          | finishedError => exact ⟨hle, hiff⟩
          | started =>
              have hc := bodyCount_set s.tasks i
                  ⟨.started, w⟩ ⟨.finishedOk, w⟩ hg
              rw [isBody_started, isBody_fin_ok] at hc
              simp only [Bool.false_eq_true, if_false, Nat.add_zero] at hc
              cases hsv : s.is_saving with
              | true =>
                  rw [hsv] at hiff
                  have hone : List.countP (fun t => isBodyTask t) s.tasks = 1 :=
                    hiff.mp rfl
                  simp only [eq_self_iff_true, if_true]
                  refine ⟨?_, ?_⟩ <;> simp only [runningSaves]
                  · omega
                  · constructor
                    · intro hx
                      omega
                    · intro hx
                      trivial
              | false =>
                  rw [hsv] at hiff
                  simp only [Bool.false_eq_true, false_iff] at hiff
                  have hzero : List.countP (fun t => isBodyTask t) s.tasks = 0 := by
                    omega
                  simp only [Bool.false_eq_true, if_false]
                  try dsimp only
                  cases hhc : s.has_changes with
                  | true =>
                      simp only [hhc, eq_self_iff_true, if_true, beginWrite]
                      try dsimp only
                      cases hmd : s.modified_data with
                      | some d =>
                          simp only [hmd]
                          have hcw := bodyCount_set s.tasks i ⟨.started, w⟩
                              ⟨.awaitingWrite (mkEcoRequest d), w⟩ hg
                          rw [isBody_started, isBody_write] at hcw
                          simp only [Bool.false_eq_true, if_false,
                            eq_self_iff_true, if_true, Nat.add_zero] at hcw
                          refine ⟨?_, ?_⟩ <;> simp only [runningSaves]
                          · omega
                          · constructor
                            · intro hx
                              omega
                            · intro hx
                              trivial
                      | none =>
                          simp only [hmd]
                          have hce := bodyCount_set s.tasks i ⟨.started, w⟩ ⟨.finishedError, w⟩ hg
                          rw [isBody_started, isBody_fin_err] at hce
                          simp only [Bool.false_eq_true, if_false,
                            Nat.add_zero] at hce
                          refine ⟨?_, ?_⟩ <;> simp only [runningSaves]
                          · omega
                          · constructor
                            · intro hx
                              exact absurd hx (by simp)
                            · intro hx
                              exact absurd hx (by omega)
                  | false =>
                      simp only [hhc, Bool.false_eq_true, if_false, finishSave]
                      have hco := bodyCount_set s.tasks i ⟨.started, w⟩ ⟨.finishedOk, w⟩ hg
                      rw [isBody_started, isBody_fin_ok] at hco
                      simp only [Bool.false_eq_true, if_false, Nat.add_zero] at hco
                      refine ⟨?_, ?_⟩ <;> simp only [runningSaves]
                      · omega
                      · constructor
                        · intro hx
                          exact absurd hx (by simp)
                        · intro hx
                          exact absurd hx (by omega)
  | completeWrite i ok =>
      simp only [ecoStep]
      cases hg : s.tasks.get? i with
      | none => exact ⟨hle, hiff⟩
      | some t =>
          obtain ⟨pc, w⟩ := t
          cases pc with
          | started => exact ⟨hle, hiff⟩
          | awaitingRefresh => exact ⟨hle, hiff⟩
          | finishedOk => exact ⟨hle, hiff⟩
          | finishedError => exact ⟨hle, hiff⟩
          | awaitingWrite req =>
              have hpos : 0 < List.countP (fun t => isBodyTask t) s.tasks :=
                bodyCount_pos s.tasks i ⟨.awaitingWrite req, w⟩ hg rfl
              have hone : List.countP (fun t => isBodyTask t) s.tasks = 1 := by
                omega
              cases ok with
              | true =>
                  simp only [eq_self_iff_true, if_true]
                  cases hhc : s.has_changes with
                  | true =>
                      simp only [hhc, eq_self_iff_true, if_true, beginWrite]
                      cases hmd : s.modified_data with
                      | some d =>
                          simp only [hmd]
                          have hcw := bodyCount_set s.tasks i ⟨.awaitingWrite req, w⟩
                              ⟨.awaitingWrite (mkEcoRequest d), w⟩ hg
                          rw [isBody_write, isBody_write] at hcw
                          simp only [eq_self_iff_true, if_true] at hcw
                          have hc2 : List.countP (fun t => isBodyTask t)
                                (s.tasks.set i ⟨.awaitingWrite (mkEcoRequest d), w⟩)
                              = List.countP (fun t => isBodyTask t) s.tasks := by
                            omega
                          refine ⟨?_, ?_⟩ <;> simp only [runningSaves] <;> rw [hc2]
                          · exact hle
                          · exact hiff
                      | none =>
                          simp only [hmd]
                          have hce := bodyCount_set s.tasks i ⟨.awaitingWrite req, w⟩
                              ⟨.finishedError, w⟩ hg
                          rw [isBody_write, isBody_fin_err] at hce
                          simp only [Bool.false_eq_true, if_false,
                            eq_self_iff_true, if_true, Nat.add_zero] at hce
                          refine ⟨?_, ?_⟩ <;> simp only [runningSaves]
                          · omega
                          · constructor
                            · intro hx
                              exact absurd hx (by simp)
                            · intro hx
                              exact absurd hx (by omega)
                  | false =>
                      simp only [hhc, Bool.false_eq_true, if_false]
                      have hcr := bodyCount_set s.tasks i ⟨.awaitingWrite req, w⟩
                          ⟨.awaitingRefresh, w⟩ hg
                      rw [isBody_write, isBody_refresh] at hcr
                      simp only [eq_self_iff_true, if_true] at hcr
                      have hc2 : List.countP (fun t => isBodyTask t)
                            (s.tasks.set i ⟨.awaitingRefresh, w⟩)
                          = List.countP (fun t => isBodyTask t) s.tasks := by
                        omega
                      refine ⟨?_, ?_⟩ <;> simp only [runningSaves] <;> rw [hc2]
                      · exact hle
                      · exact hiff
              | false =>
                  simp only [Bool.false_eq_true, if_false]
                  have hce := bodyCount_set s.tasks i ⟨.awaitingWrite req, w⟩ ⟨.finishedError, w⟩ hg
                  rw [isBody_write, isBody_fin_err] at hce
                  simp only [Bool.false_eq_true, if_false,
                    eq_self_iff_true, if_true, Nat.add_zero] at hce
                  refine ⟨?_, ?_⟩ <;> simp only [runningSaves]
                  · omega
                  · constructor
                    · intro hx
                      exact absurd hx (by simp)
                    · intro hx
                      exact absurd hx (by omega)
  | completeRefresh i r =>
      simp only [ecoStep]
      cases hg : s.tasks.get? i with
      | none => exact ⟨hle, hiff⟩
      | some t =>
          obtain ⟨pc, w⟩ := t
          cases pc with
          | started => exact ⟨hle, hiff⟩
          | awaitingWrite req => exact ⟨hle, hiff⟩
          | finishedOk => exact ⟨hle, hiff⟩
          | finishedError => exact ⟨hle, hiff⟩
          | awaitingRefresh =>
              have hpos : 0 < List.countP (fun t => isBodyTask t) s.tasks :=
                bodyCount_pos s.tasks i ⟨.awaitingRefresh, w⟩ hg rfl
              have hone : List.countP (fun t => isBodyTask t) s.tasks = 1 := by
                omega
              cases r with
              | some d =>
                  try dsimp only
                  cases hhc : s.has_changes with
                  | true =>
                      simp only [hhc, eq_self_iff_true, if_true, beginWrite]
                      try dsimp only
                      cases hmd : s.modified_data with
                      | some d2 =>
                          simp only [hmd]
                          have hcw := bodyCount_set s.tasks i ⟨.awaitingRefresh, w⟩
                              ⟨.awaitingWrite (mkEcoRequest d2), w⟩ hg
                          rw [isBody_refresh, isBody_write] at hcw
                          simp only [eq_self_iff_true, if_true] at hcw
                          have hc2 : List.countP (fun t => isBodyTask t)
                                (s.tasks.set i ⟨.awaitingWrite (mkEcoRequest d2), w⟩)
                              = List.countP (fun t => isBodyTask t) s.tasks := by
                            omega
                          refine ⟨?_, ?_⟩ <;> simp only [runningSaves] <;> rw [hc2]
                          · exact hle
                          · exact hiff
                      | none =>
                          simp only [hmd]
                          have hce := bodyCount_set s.tasks i ⟨.awaitingRefresh, w⟩ ⟨.finishedError, w⟩ hg
                          rw [isBody_refresh, isBody_fin_err] at hce
                          simp only [Bool.false_eq_true, if_false,
                            eq_self_iff_true, if_true, Nat.add_zero] at hce
                          refine ⟨?_, ?_⟩ <;> simp only [runningSaves]
                          · omega
                          · constructor
                            · intro hx
                              exact absurd hx (by simp)
                            · intro hx
                              exact absurd hx (by omega)
                  | false =>
                      simp only [hhc, Bool.false_eq_true, if_false, finishSave]
                      have hco := bodyCount_set s.tasks i ⟨.awaitingRefresh, w⟩ ⟨.finishedOk, w⟩ hg
                      rw [isBody_refresh, isBody_fin_ok] at hco
                      simp only [Bool.false_eq_true, if_false,
                        eq_self_iff_true, if_true, Nat.add_zero] at hco
                      refine ⟨?_, ?_⟩ <;> simp only [runningSaves]
                      · omega
                      · constructor
                        · intro hx
                          exact absurd hx (by simp)
                        · intro hx
                          exact absurd hx (by omega)
              | none =>
                  try dsimp only
                  cases hhc : s.has_changes with
                  | true =>
                      simp only [hhc, eq_self_iff_true, if_true, beginWrite]
                      try dsimp only
                      cases hmd : s.modified_data with
                      | some d2 =>
                          simp only [hmd]
                          have hcw := bodyCount_set s.tasks i ⟨.awaitingRefresh, w⟩
                              ⟨.awaitingWrite (mkEcoRequest d2), w⟩ hg
                          rw [isBody_refresh, isBody_write] at hcw
                          simp only [eq_self_iff_true, if_true] at hcw
                          have hc2 : List.countP (fun t => isBodyTask t)
                                (s.tasks.set i ⟨.awaitingWrite (mkEcoRequest d2), w⟩)
                              = List.countP (fun t => isBodyTask t) s.tasks := by
                            omega
                          refine ⟨?_, ?_⟩ <;> simp only [runningSaves] <;> rw [hc2]
                          · exact hle
                          · exact hiff
                      | none =>
                          simp only [hmd]
                          have hce := bodyCount_set s.tasks i ⟨.awaitingRefresh, w⟩ ⟨.finishedError, w⟩ hg
                          rw [isBody_refresh, isBody_fin_err] at hce
                          simp only [Bool.false_eq_true, if_false,
                            eq_self_iff_true, if_true, Nat.add_zero] at hce
                          refine ⟨?_, ?_⟩ <;> simp only [runningSaves]
                          · omega
                          · constructor
                            · intro hx
                              exact absurd hx (by simp)
                            · intro hx
                              exact absurd hx (by omega)
                  | false =>
                      simp only [hhc, Bool.false_eq_true, if_false, finishSave]
                      have hco := bodyCount_set s.tasks i ⟨.awaitingRefresh, w⟩ ⟨.finishedOk, w⟩ hg
                      rw [isBody_refresh, isBody_fin_ok] at hco
                      simp only [Bool.false_eq_true, if_false,
                        eq_self_iff_true, if_true, Nat.add_zero] at hco
                      refine ⟨?_, ?_⟩ <;> simp only [runningSaves]
                      · omega
                      · constructor
                        · intro hx
                          exact absurd hx (by simp)
                        · intro hx
                          exact absurd hx (by omega)

theorem ecoRun_inv (s : EcoState) (cmds : List EcoCmd) (h : EcoInv s) :
    EcoInv (ecoRun s cmds).1 := by
  induction cmds generalizing s with
  | nil => exact h
  | cons c cs ih => exact ih (ecoStep s c).1 (ecoStep_inv s c h)

/-!  The claims. -/

/-- Claim C1: for every nonempty sequence of set_data calls that all land
before the save task has run (the strongest form of being issued before any
save completes: no write has even been dispatched), the completed save
process sends exactly one whole-document write, and its body is the last
merged overlay state, the sequential merge of all the edit callbacks over
the confirmed document.  Intermediate overlay states are never individually
transmitted and there is never one write per edit. -/
theorem eco_coalescing (d0 : EcoModeConfiguration)
    (fs : List (EcoModeConfiguration → EcoModeConfiguration))
    (r : Option EcoModeConfiguration) (hne : fs ≠ []) :
    writesOf (ecoRun (initialEcoState (some d0))
        (fs.map EcoCmd.applyEdit
          ++ [.runTaskStart 0, .completeWrite 0 true, .completeRefresh 0 r])).2
      = [mkEcoRequest (coalescedDoc d0 fs)] := by
  obtain ⟨f, fs2, rfl⟩ := List.exists_cons_of_ne_nil hne
  rw [ecoRun_append, writesOf_append, writesOf_edit_burst]
  have hs : (ecoRun (initialEcoState (some d0)) ((f :: fs2).map EcoCmd.applyEdit)).1
      = pendingEditState d0 (coalescedDoc (f d0) fs2) (1 + fs2.length) := by
    show (ecoRun (ecoStep (initialEcoState (some d0)) (.applyEdit f)).1
            (fs2.map EcoCmd.applyEdit)).1 = _
    rw [ecoStep_edit_initial]
    exact ecoRun_edit_burst fs2 d0 (f d0) 1
  rw [hs, writesOf_save_round]
  rfl

/-- Witness for eco_coalescing: one edit activating eco mode followed by the
save round sends exactly one write carrying the edited document. -/
theorem eco_coalescing_witness :
    writesOf (ecoRun (initialEcoState (some sampleDoc))
        ([setActiveTrue].map EcoCmd.applyEdit
          ++ [.runTaskStart 0, .completeWrite 0 true, .completeRefresh 0 none])).2
      = [mkEcoRequest (coalescedDoc sampleDoc [setActiveTrue])] :=
  eco_coalescing sampleDoc [setActiveTrue] none (by simp)

/-- Claim C2: the single-flight and single-overlay discipline.  In every
state reachable from a fresh coordinator at most one save task is executing
the body of _save_changes; a set_data call finding an existing overlay merges
the callback into that overlay (which stays the unique overlay field) rather
than creating a parallel one; a set_data call finding a pending, not yet done
save task joins it without spawning a second task; and running a save task
while _is_saving is already set returns immediately, completing the task
without touching any coordinator field and without sending a write. -/
theorem eco_single_flight (d : Option EcoModeConfiguration)
    (cmds : List EcoCmd) :
    runningSaves (ecoRun (initialEcoState d) cmds).1 ≤ 1
    ∧ (∀ (s2 : EcoState) (f : EcoModeConfiguration → EcoModeConfiguration)
          (m : EcoModeConfiguration), s2.modified_data = some m →
        (ecoStepState s2 (.applyEdit f)).modified_data = some (f m))
    ∧ (∀ (s2 : EcoState) (f : EcoModeConfiguration → EcoModeConfiguration)
          (i : Nat) (t : SaveTask), s2.save_task = some i →
        s2.tasks.get? i = some t → t.done = false →
        (ecoStepState s2 (.applyEdit f)).tasks.length = s2.tasks.length)
    ∧ (∀ (s2 : EcoState) (i w : Nat), s2.is_saving = true →
        s2.tasks.get? i = some ⟨.started, w⟩ →
        ecoStep s2 (.runTaskStart i)
          = ({ s2 with tasks := s2.tasks.set i ⟨.finishedOk, w⟩ },
             [.taskCompleted i true w])) := by
  refine ⟨(ecoRun_inv (initialEcoState d) cmds (ecoInv_initial d)).1, ?_, ?_, ?_⟩
  · intro s2 f m hm
    simp only [ecoStepState, ecoStep, hm]
    split <;> (try split) <;> (try split) <;> rfl
  · intro s2 f i t hst hg hd
    simp only [ecoStepState, ecoStep, hst, hg, hd, Bool.false_eq_true, if_false,
      List.length_set]
  · intro s2 i w hsv hg
    simp only [ecoStep, hg, hsv, eq_self_iff_true, if_true]

/-- Witness for eco_single_flight: a concrete run keeps at most one running
save, and an edit on a state with an overlay merges into it. -/
theorem eco_single_flight_witness :
    runningSaves (ecoRun (initialEcoState (some sampleDoc))
        [.applyEdit setActiveTrue, .runTaskStart 0]).1 ≤ 1
    ∧ (ecoStepState (pendingEditState sampleDoc sampleDoc 1)
          (.applyEdit setActiveTrue)).modified_data
        = some (setActiveTrue sampleDoc) :=
  ⟨(eco_single_flight (some sampleDoc)
      [.applyEdit setActiveTrue, .runTaskStart 0]).1,
   (eco_single_flight (some sampleDoc) []).2.1
     (pendingEditState sampleDoc sampleDoc 1) setActiveTrue sampleDoc rfl⟩

/-- Claim C3: when the whole-document write fails, the pending overlay is
dropped, so get_data falls back to the last confirmed document (which the
failure does not change); the save loop aborts with no further write and no
retry (the failed task never steps again); and the task completes
exceptionally, delivering the failure to every set_data caller awaiting it
(asyncio re-raises the stored exception in each awaiter). -/
theorem eco_write_failure_drops_overlay (s : EcoState) (i w : Nat)
    (req : EcoModeConfigurationRequest) (b : Bool)
    (r : Option EcoModeConfiguration)
    (h : s.tasks.get? i = some ⟨.awaitingWrite req, w⟩) :
    (ecoStepState s (.completeWrite i false)).modified_data = none
    ∧ (ecoStepState s (.completeWrite i false)).get_data
        = (ecoStepState s (.completeWrite i false)).data
    ∧ (ecoStepState s (.completeWrite i false)).data = s.data
    ∧ ecoStepEvents s (.completeWrite i false) = [.taskCompleted i false w]
    ∧ writesOf (ecoStepEvents s (.completeWrite i false)) = []
    ∧ (ecoStepState s (.completeWrite i false)).tasks.get? i
        = some ⟨.finishedError, w⟩
    ∧ ecoStep (ecoStepState s (.completeWrite i false)) (.runTaskStart i)
        = (ecoStepState s (.completeWrite i false), [])
    ∧ ecoStep (ecoStepState s (.completeWrite i false)) (.completeWrite i b)
        = (ecoStepState s (.completeWrite i false), [])
    ∧ ecoStep (ecoStepState s (.completeWrite i false)) (.completeRefresh i r)
        = (ecoStepState s (.completeWrite i false), []) := by
  have hstep : ecoStep s (.completeWrite i false)
      = ({ s with
            modified_data := none, is_saving := false, save_task := none,
            tasks := s.tasks.set i ⟨.finishedError, w⟩ },
         [.taskCompleted i false w]) := by
    simp only [ecoStep, h, Bool.false_eq_true, if_false]
  have hget := get?_set_of_get? s.tasks i ⟨.awaitingWrite req, w⟩
      ⟨.finishedError, w⟩ h
  have hstate : ecoStepState s (.completeWrite i false)
      = { s with
            modified_data := none, is_saving := false, save_task := none,
            tasks := s.tasks.set i ⟨.finishedError, w⟩ } := by
    simp only [ecoStepState, hstep]
  refine ⟨?_, ?_, ?_, ?_, ?_, ?_, ?_, ?_, ?_⟩
  · simp only [ecoStepState, hstep]
  · simp only [ecoStepState, hstep, EcoState.get_data]
  · simp only [ecoStepState, hstep]
  · simp only [ecoStepEvents, hstep]
  · simp only [ecoStepEvents, hstep, writesOf, List.filterMap]
  · simp only [ecoStepState, hstep]
    exact hget
  · rw [hstate]
    simp only [ecoStep, hget]
  · rw [hstate]
    simp only [ecoStep, hget]
  · rw [hstate]
    simp only [ecoStep, hget]

/-- Witness for eco_write_failure_drops_overlay at a concrete in-flight
write: the overlay is dropped and the view reverts to the confirmed
document. -/
theorem eco_write_failure_drops_overlay_witness :
    (ecoStepState inFlightWriteState (.completeWrite 0 false)).modified_data
        = none
    ∧ (ecoStepState inFlightWriteState (.completeWrite 0 false)).data
        = inFlightWriteState.data
    ∧ ecoStepEvents inFlightWriteState (.completeWrite 0 false)
        = [.taskCompleted 0 false 2] :=
  ⟨(eco_write_failure_drops_overlay inFlightWriteState 0 2
      (mkEcoRequest sampleDocB) true none rfl).1,
   (eco_write_failure_drops_overlay inFlightWriteState 0 2
      (mkEcoRequest sampleDocB) true none rfl).2.2.1,
   (eco_write_failure_drops_overlay inFlightWriteState 0 2
      (mkEcoRequest sampleDocB) true none rfl).2.2.2.1⟩

/-- Claim C4: a save round that completes without a write failure: when the
re-poll finishes (returning document d) and no further edit is pending, the
overlay is cleared, get_data equals the freshly polled document, all
subscribers are notified, and the save task completes normally. -/
theorem eco_save_success_completion (s : EcoState) (i w : Nat)
    (d : EcoModeConfiguration)
    (htask : s.tasks.get? i = some ⟨.awaitingRefresh, w⟩)
    (hnc : s.has_changes = false) :
    (ecoStepState s (.completeRefresh i (some d))).modified_data = none
    ∧ (ecoStepState s (.completeRefresh i (some d))).data = some d
    ∧ (ecoStepState s (.completeRefresh i (some d))).get_data = some d
    ∧ ecoStepEvents s (.completeRefresh i (some d))
        = [.refreshed (some d), .listenersNotified, .taskCompleted i true w]
    ∧ (ecoStepState s (.completeRefresh i (some d))).tasks.get? i
        = some ⟨.finishedOk, w⟩ := by
  have hstep : ecoStep s (.completeRefresh i (some d))
      = ({ s with
            data := some d, modified_data := none, is_saving := false,
            save_task := none, tasks := s.tasks.set i ⟨.finishedOk, w⟩ },
         [.refreshed (some d), .listenersNotified, .taskCompleted i true w]) := by
    simp only [ecoStep, htask, hnc, Bool.false_eq_true, if_false, finishSave]
  have hget := get?_set_of_get? s.tasks i ⟨.awaitingRefresh, w⟩
      ⟨.finishedOk, w⟩ htask
  refine ⟨?_, ?_, ?_, ?_, ?_⟩
  · simp only [ecoStepState, hstep]
  · simp only [ecoStepState, hstep]
  · simp only [ecoStepState, hstep, EcoState.get_data]
  · simp only [ecoStepEvents, hstep]
  · simp only [ecoStepState, hstep]
    exact hget

/-- Witness for eco_save_success_completion at a concrete state awaiting the
re-poll: the view becomes the freshly polled document and the listeners are
notified. -/
theorem eco_save_success_completion_witness :
    (ecoStepState awaitingRefreshState (.completeRefresh 0 (some sampleDocB))).get_data
        = some sampleDocB
    ∧ ecoStepEvents awaitingRefreshState (.completeRefresh 0 (some sampleDocB))
        = [.refreshed (some sampleDocB), .listenersNotified,
           .taskCompleted 0 true 1] :=
  ⟨(eco_save_success_completion awaitingRefreshState 0 1 sampleDocB rfl rfl).2.2.1,
   (eco_save_success_completion awaitingRefreshState 0 1 sampleDocB rfl rfl).2.2.2.1⟩

/-- Claim C5: in every coordinator state, get_data returns the pending
overlay when one exists, falls back to the last confirmed polled document
otherwise, and never produces any third value. -/
theorem eco_get_data_view (s : EcoState) :
    (∀ m : EcoModeConfiguration, s.modified_data = some m →
        s.get_data = some m)
    ∧ (s.modified_data = none → s.get_data = s.data)
    ∧ (∀ v : EcoModeConfiguration, s.get_data = some v →
        s.modified_data = some v
          ∨ (s.modified_data = none ∧ s.data = some v)) := by
  refine ⟨?_, ?_, ?_⟩
  · intro m hm
    simp [EcoState.get_data, hm]
  · intro hm
    simp [EcoState.get_data, hm]
  · intro v hv
    cases hm : s.modified_data with
    | some m =>
        left
        have hmv : m = v := by simpa [EcoState.get_data, hm] using hv
        exact congrArg some hmv
    | none =>
        right
        refine ⟨rfl, ?_⟩
        simpa [EcoState.get_data, hm] using hv

/-- Witness for eco_get_data_view: with an overlay present the view is the
overlay; with no overlay it is the confirmed document. -/
theorem eco_get_data_view_witness :
    (pendingEditState sampleDoc sampleDocB 1).get_data = some sampleDocB
    ∧ (initialEcoState (some sampleDoc)).get_data
        = (initialEcoState (some sampleDoc)).data :=
  ⟨(eco_get_data_view (pendingEditState sampleDoc sampleDocB 1)).1
      sampleDocB rfl,
   (eco_get_data_view (initialEcoState (some sampleDoc))).2.1 rfl⟩

/-- Claim C6: the adaptive cadence state machine of the operational-data
coordinator fed the charging states Idle, Charging, Charging, SuspendedEV:
the interval becomes 10 seconds on the first Charging reading with exactly
one start-live-consumption request, stays 10 seconds with no further request
on the repeated Charging reading, and reverts to 60 seconds on SuspendedEV;
in general a cycle issues the start-live-consumption request exactly when the
fetched state is Charging and the coordinator was not already charging. -/
theorem op_cadence_transitions :
    ((opUpdateData initialOpState (.ok (opSnapshot "Idle")) (.ok ())).1.update_interval = 60
      ∧ (opUpdateData initialOpState (.ok (opSnapshot "Idle")) (.ok ())).2.2 = false
      ∧ (opUpdateData
          (opUpdateData initialOpState (.ok (opSnapshot "Idle")) (.ok ())).1
          (.ok (opSnapshot "Charging")) (.ok ())).1.update_interval = 10
      ∧ (opUpdateData
          (opUpdateData initialOpState (.ok (opSnapshot "Idle")) (.ok ())).1
          (.ok (opSnapshot "Charging")) (.ok ())).2.2 = true
      ∧ (opUpdateData
          (opUpdateData
            (opUpdateData initialOpState (.ok (opSnapshot "Idle")) (.ok ())).1
            (.ok (opSnapshot "Charging")) (.ok ())).1
          (.ok (opSnapshot "Charging")) (.ok ())).1.update_interval = 10
      ∧ (opUpdateData
          (opUpdateData
            (opUpdateData initialOpState (.ok (opSnapshot "Idle")) (.ok ())).1
            (.ok (opSnapshot "Charging")) (.ok ())).1
          (.ok (opSnapshot "Charging")) (.ok ())).2.2 = false
      ∧ (opUpdateData
          (opUpdateData
            (opUpdateData
              (opUpdateData initialOpState (.ok (opSnapshot "Idle")) (.ok ())).1
              (.ok (opSnapshot "Charging")) (.ok ())).1
            (.ok (opSnapshot "Charging")) (.ok ())).1
          (.ok (opSnapshot "SuspendedEV")) (.ok ())).1.update_interval = 60
      ∧ (opUpdateData
          (opUpdateData
            (opUpdateData
              (opUpdateData initialOpState (.ok (opSnapshot "Idle")) (.ok ())).1
              (.ok (opSnapshot "Charging")) (.ok ())).1
            (.ok (opSnapshot "Charging")) (.ok ())).1
          (.ok (opSnapshot "SuspendedEV")) (.ok ())).2.2 = false)
    ∧ ∀ (s : OpCoordinatorState) (d : OperationalData)
        (live : Except CloudChargeAPIError Unit),
        (opUpdateData s (.ok d) live).2.2
          = (!s.is_charging && (d.charging_state == some "Charging")) := by
  constructor
  · exact ⟨rfl, rfl, rfl, rfl, rfl, rfl, rfl, rfl⟩
  · intro s d live
    simp only [opUpdateData]
    cases hcs : d.charging_state with
    | none => simp [strTruthy]
    | some cs =>
        by_cases hcs0 : cs = ""
        · subst hcs0
          have hne : (("" : String) == "Charging") = false := by decide
          simp [strTruthy, hne]
        · have htr : strTruthy (some cs) = true := by
            simp [strTruthy, hcs0]
          by_cases hch : cs = "Charging"
          · subst hch
            have heq : ((some "Charging" : Option String) == some "Charging") = true := by
              decide
            cases hic : s.is_charging with
            | true => simp [htr, heq, hic]
            | false => cases live <;> simp [htr, heq, hic]
          · have hne : ((some cs : Option String) == some "Charging") = false := by
              simp [hch]
            cases hic : s.is_charging with
            | true => simp [htr, hne, hic]
            | false => simp [htr, hne, hic]

/-- Claim C7 counterexample: with the coordinator idle, a successful fetch
reading Charging reaches the start-live-consumption await, which in the
source sits outside the try/except; when that call raises a provider request
error the cycle outcome is the raw provider error, which is neither the
terminal auth-failure condition nor the transient update-failed condition. -/
theorem op_live_error_escapes_unwrapped :
    (opUpdateData initialOpState (.ok (opSnapshot "Charging"))
        (.error .requestError)).2.1
      = .unhandled .requestError
    ∧ (((opUpdateData initialOpState (.ok (opSnapshot "Charging"))
          (.error .requestError)).2.1
        == (.configEntryAuthFailed : UpdateOutcome OperationalData)) = false)
    ∧ (((opUpdateData initialOpState (.ok (opSnapshot "Charging"))
          (.error .requestError)).2.1
        == (.updateFailed : UpdateOutcome OperationalData)) = false) := by
  refine ⟨rfl, ?_, ?_⟩ <;> decide

/-- Claim C7 (amended): every provider error raised by the data fetch of the
chargepoint or operational-data coordinator is re-raised as exactly one of
two conditions: ConfigEntryAuthFailed for an auth error and UpdateFailed for
every other provider error; each cycle consumes exactly one fetch outcome
with no internal retry.  However, a provider error raised by the
operational-data coordinator start-live-consumption side effect escapes the
cycle unwrapped. -/
theorem coordinator_error_wrapping (s : OpCoordinatorState)
    (e el : CloudChargeAPIError) (live : Except CloudChargeAPIError Unit)
    (d : OperationalData)
    (hidle : s.is_charging = false)
    (hcs : d.charging_state = some "Charging") :
    opUpdateData s (.error e) live = (s, wrapProviderError e, false)
    ∧ chargepointUpdateData (.error e)
        = (wrapProviderError e : UpdateOutcome ChargepointData)
    ∧ (opUpdateData s (.ok d) (.error el)).2.1 = .unhandled el := by
  refine ⟨?_, ?_, ?_⟩
  · cases e <;> simp [opUpdateData, wrapProviderError]
  · cases e <;> simp [chargepointUpdateData, wrapProviderError]
  · have h1 : strTruthy (some "Charging") = true := by decide
    have h2 : ((some "Charging" : Option String) == some "Charging") = true := by
      decide
    simp [opUpdateData, hcs, h1, h2, hidle]

/-- Witness for coordinator_error_wrapping: a request error from the fetch is
wrapped as UpdateFailed; an auth error from the live-consumption call escapes
raw. -/
theorem coordinator_error_wrapping_witness :
    opUpdateData initialOpState (.error .requestError) (.ok ())
        = (initialOpState, wrapProviderError .requestError, false)
    ∧ (opUpdateData initialOpState (.ok (opSnapshot "Charging"))
        (.error .authError)).2.1 = .unhandled .authError :=
  ⟨(coordinator_error_wrapping initialOpState .requestError .authError (.ok ())
      (opSnapshot "Charging") rfl rfl).1,
   (coordinator_error_wrapping initialOpState .requestError .authError (.ok ())
      (opSnapshot "Charging") rfl rfl).2.2⟩

/-- Claim C8: a refresh cycle whose fetch fails leaves the cadence and the
is_charging flag unchanged and issues no start-live-consumption request;
conversely any cycle that changes the coordinator state at all had a
successful fetch, so the cadence is only ever mutated as a side effect of a
successful fetch. -/
theorem op_failed_fetch_frame (s : OpCoordinatorState)
    (e : CloudChargeAPIError) (live live2 : Except CloudChargeAPIError Unit)
    (fetch : Except CloudChargeAPIError OperationalData)
    (hchanged : (opUpdateData s fetch live2).1 ≠ s) :
    (opUpdateData s (.error e) live).1 = s
    ∧ (opUpdateData s (.error e) live).2.2 = false
    ∧ ∃ d, fetch = .ok d := by
  refine ⟨?_, ?_, ?_⟩
  · cases e <;> rfl
  · cases e <;> rfl
  · cases fetch with
    | ok d => exact ⟨d, rfl⟩
    | error e2 => exact absurd (by cases e2 <;> rfl) hchanged

/-- Witness for op_failed_fetch_frame: a failed fetch leaves the fresh
coordinator state unchanged, while the cadence-changing cycle in the
hypothesis had a successful fetch. -/
theorem op_failed_fetch_frame_witness :
    (opUpdateData initialOpState (.error .requestError) (.ok ())).1
        = initialOpState
    ∧ ∃ d, (.ok (opSnapshot "Charging") :
          Except CloudChargeAPIError OperationalData) = .ok d :=
  ⟨(op_failed_fetch_frame initialOpState .requestError (.ok ()) (.ok ())
      (.ok (opSnapshot "Charging")) (by decide)).1,
   (op_failed_fetch_frame initialOpState .requestError (.ok ()) (.ok ())
      (.ok (opSnapshot "Charging")) (by decide)).2.2⟩

/-- Claim C9: ChargerRestartButton.async_press invokes
client.async_restart_charger, a method the API client does not define, so
every press fails with AttributeError before any request is sent; the client
restart operation is actually named async_reset_charger and takes two
arguments (connector id and reset type) where the button call site supplies
only one, so the restart operation is never reachable through this button. -/
theorem charger_restart_button_unreachable :
    chargerRestartAsyncPress = (.attributeError "async_restart_charger", 0)
    ∧ lookupClientMethod "async_restart_charger" = none
    ∧ lookupClientMethod "async_reset_charger" = some 2
    ∧ (chargerRestartCall.2 == 2) = false := by
  refine ⟨rfl, rfl, rfl, rfl⟩

/-- Claim C10: set_data has an unguarded precondition that a confirmed
document exists: invoked on a coordinator that has never successfully polled
(data is None) and holds no overlay, the overlay becomes
deepcopy(None), which is None, and hands None to the caller mutator instead
of an EcoModeConfiguration document; the coordinator is left flagged with
unsaved changes and a scheduled save task while the overlay is still None. -/
theorem eco_edit_without_confirmed_data
    (f : EcoModeConfiguration → EcoModeConfiguration) :
    ecoStep (initialEcoState none) (.applyEdit f)
      = ({ initialEcoState none with
            modified_data := none, has_changes := true,
            save_task := some 0, tasks := [⟨.started, 1⟩] },
         [.callbackApplied none, .taskCreated 0]) := rfl

end DefaPower
